import Mathlib

/-!
Shallow embedding of pyprocdev (src/src/pyprocdev/_pyprocdev.py): a parser
for /proc/devices style text that builds, per device type, a forward table
from major number to driver name, together with a query surface offering a
forward lookup (get_driver) and a reverse lookup (get_majors) backed by a
lazily built reverse table.

Embedding conventions:
- Python strings are Lean Strings; the dicts used by the source have int
  keys in the forward direction and string keys in the reverse direction
  and are modelled as association lists.  No behaviour of the source
  depends on dict iteration order: the only iteration over a dict is
  table.items() inside _build_reverse_table, which (when it does not fail,
  see build_reverse_table below) touches dicts of at most one entry.
- Exceptions are modelled with Except PyError.  ProcDevParsingError and
  ProcDevValueError come from the _errors module, which is not under src;
  their constructor calls in _pyprocdev.py show they carry a message
  respectively a value and a parameter name.  valueError and typeError
  model the Python built-in exceptions ValueError and TypeError escaping
  uncaught.
- Methods whose def line carries self (_parse_file, __init__,
  _build_reverse_table) are embedded as functions taking the instance
  state explicitly.
- get_driver and get_majors omit self from their def lines while their
  bodies reference self.  A method call on an instance therefore passes
  the instance plus the two explicit arguments to a two-parameter
  function, and Python raises TypeError for the arity mismatch at the
  call boundary, before the body executes and before any instance state
  is read or written.  (A call that did match the arity would bind the
  instance to device_type and then raise NameError at the unbound self
  inside the body; either way no body statement completes.)  Their
  embeddings take the instance state and arguments of the attempted call
  and return the TypeError with the state unchanged; the bodies — with
  their latent memoization and sorting slips, see build_reverse_table —
  are unreachable through any invocation.
- get_majors additionally returns a Bool recording whether
  _build_reverse_table was invoked during the call (the build-count
  instrumentation the spec describes for tests); it is false at the call
  boundary since the body never runs.
-/

/-- Modelled from the spec: the DeviceTypes enumeration provided by the
missing _constants module, with members NOTYPE, CHARACTER and BLOCK.
NOTYPE is the parser-internal sentinel for "no recognized section". -/
inductive DeviceType
  | NOTYPE
  | CHARACTER
  | BLOCK
deriving DecidableEq

/-- Modelled from the spec: the textual rendering of a DeviceTypes member,
as interpolated by %s into the unknown-device-type parsing error.  The
spec requires only that the error name the unrecognized section. -/
def DeviceType.str : DeviceType → String
  | .NOTYPE => "NOTYPE"
  | .CHARACTER => "CHARACTER"
  | .BLOCK => "BLOCK"

/-- Errors surfaced by the embedded code.  The first two model the
ProcDevParsingError and ProcDevValueError classes of the missing _errors
module, carrying the arguments the source passes to their constructors
(the "device_type" parameter-name argument of ProcDevValueError is a
constant at both call sites and is omitted).  valueError models an
uncaught Python ValueError (from int() on a non-integer token) and
typeError an uncaught Python TypeError: the arity mismatch every
get_driver and get_majors call raises at the call boundary, and the
latent sorted() misuse inside build_reverse_table. -/
inductive PyError
  | procDevParsingError (msg : String)
  | procDevValueError (value : DeviceType)
  | valueError
  | typeError
deriving DecidableEq

deriving instance DecidableEq for Except

/-- Python str.isspace characters relevant to str.rstrip() and
str.split() with no arguments: space, tab, newline, carriage return,
vertical tab and form feed. -/
def pyIsSpace (c : Char) : Bool :=
  c = ' ' || c = '\t' || c = '\n' || c = '\r' || c = '\x0b' || c = '\x0c'

/-- Python line.rstrip(): remove trailing whitespace characters. -/
def rstrip (s : String) : String :=
  String.mk ((s.data.reverse.dropWhile pyIsSpace).reverse)

/-- Helper for pySplit: accumulate the current token (reversed) while
scanning the character list. -/
def splitAux : List Char → List Char → List String
  | [], [] => []
  | [], acc => [String.mk acc.reverse]
  | c :: cs, acc =>
    if pyIsSpace c then
      match acc with
      | [] => splitAux cs []
      | _ => String.mk acc.reverse :: splitAux cs []
    else
      splitAux cs (c :: acc)

/-- Python line.split() with no arguments: split on runs of whitespace,
producing no empty tokens. -/
def pySplit (s : String) : List String :=
  splitAux s.data []

/-- Value of a list of decimal digit characters, most significant first. -/
def digitsVal (cs : List Char) : Nat :=
  cs.foldl (fun n c => 10 * n + (c.toNat - 48)) 0

/-- Python 2 int(token) for a whitespace-free token (the tokens produced
by str.split() contain no whitespace, so the surrounding-whitespace
tolerance of int() never fires here): an optional sign followed by one or
more decimal digits parses, in particular a negative token such as
"-5" parses to a negative integer; anything else raises ValueError,
modelled as none. -/
def pyInt (s : String) : Option Int :=
  match s.data with
  | [] => none
  | '-' :: rest =>
    if !rest.isEmpty && rest.all Char.isDigit then
      some (-(digitsVal rest : Int))
    else none
  | '+' :: rest =>
    if !rest.isEmpty && rest.all Char.isDigit then
      some ((digitsVal rest : Int))
    else none
  | cs =>
    if cs.all Char.isDigit then some ((digitsVal cs : Int)) else none

/-- Python dict assignment d[k] = v on an association list: replace the
value at an existing key in place, else append the new pair. -/
def dictInsert {α β : Type} [DecidableEq α] : List (α × β) → α → β → List (α × β)
  | [], k, v => [(k, v)]
  | (k0, v0) :: rest, k, v =>
    if k0 = k then (k, v) :: rest else (k0, v0) :: dictInsert rest k v

/-- Python dict lookup d[k] / d.get(k) on an association list. -/
def alookup {α β : Type} [DecidableEq α] : List (α × β) → α → Option β
  | [], _ => none
  | (k0, v0) :: rest, k => if k0 = k then some v0 else alookup rest k

/-- Embeds the _TablePairs class: left is the ForwardTable from major
number to driver name, right the lazily built ReverseTable from driver
name to set of majors, with none as the Python None sentinel for "not yet
built".  The frozensets of the source are modelled as lists of majors. -/
structure TablePairs where
  left : List (Int × String)
  right : Option (List (String × List Int))
deriving DecidableEq

/-- The instance state: the self._tables dict, which holds exactly the
keys DeviceTypes.CHARACTER and DeviceTypes.BLOCK. -/
structure ProcDevState where
  character : TablePairs
  block : TablePairs
deriving DecidableEq

/-- Lookup self._tables[dt]: CHARACTER and BLOCK are present, any other
key (NOTYPE) raises KeyError, modelled as none. -/
def getPair (s : ProcDevState) : DeviceType → Option TablePairs
  | .CHARACTER => some s.character
  | .BLOCK => some s.block
  | .NOTYPE => none

/-- Write back the _TablePairs entry for a device type; never invoked at
NOTYPE (getPair at NOTYPE yields none first). -/
def setPair (s : ProcDevState) : DeviceType → TablePairs → ProcDevState
  | .CHARACTER, tp => { s with character := tp }
  | .BLOCK, tp => { s with block := tp }
  | .NOTYPE, _ => s

/-- The state ProcDev.__init__ builds before parsing: two _TablePairs
with empty forward tables and None reverse tables. -/
def initState : ProcDevState :=
  ⟨⟨[], none⟩, ⟨[], none⟩⟩

/-- Embeds the data-row branch of _parse_file for an already rstripped,
non-blank, non-header line: split the line; on anything but exactly two
tokens raise ProcDevParsingError naming the line; look up the table for
the current section, raising ProcDevParsingError naming the section when
it is unrecognized (NOTYPE); convert the major token with int(), whose
ValueError escapes uncaught; finally insert major into the forward
table with last-write-wins dict assignment. -/
def parseData (parsing : DeviceType) (s : ProcDevState) (line : String) :
    Except PyError (DeviceType × ProcDevState) :=
  match pySplit line with
  | [major, device] =>
    match getPair s parsing with
    | none =>
      .error (.procDevParsingError
        ("Parsing data for unknown device type " ++ parsing.str ++ "."))
    | some tp =>
      match pyInt major with
      | none => .error .valueError
      | some m =>
        .ok (parsing, setPair s parsing { tp with left := dictInsert tp.left m device })
  | _ => .error (.procDevParsingError ("Unexpected format for line " ++ line))

/-- Embeds one iteration of the _parse_file loop: rstrip the line; a
blank line resets the section to NOTYPE; the exact literal headers switch
the section to CHARACTER or BLOCK; anything else is a data row. -/
def parseLine (parsing : DeviceType) (s : ProcDevState) (rawLine : String) :
    Except PyError (DeviceType × ProcDevState) :=
  if rstrip rawLine = "" then .ok (.NOTYPE, s)
  else if rstrip rawLine = "Character devices:" then .ok (.CHARACTER, s)
  else if rstrip rawLine = "Block devices:" then .ok (.BLOCK, s)
  else parseData parsing s (rstrip rawLine)

/-- Embeds the _parse_file loop over the sequence of lines supplied by
the input source, threading the current section and the tables; the
first error aborts the remainder of the pass. -/
def parseLinesS : DeviceType → ProcDevState → List String → Except PyError (DeviceType × ProcDevState)
  | st, s, [] => .ok (st, s)
  | st, s, l :: ls =>
    match parseLine st s l with
    | .ok p => parseLinesS p.1 p.2 ls
    | .error e => .error e

/-- Embeds ProcDev.__init__ given the lines the input source yields:
build the two empty _TablePairs, then run _parse_file; an instance is
returned exactly when the whole pass succeeds, and a parse error
propagates out of the constructor so that no instance is observable. -/
def mkProcDev (lines : List String) : Except PyError ProcDevState :=
  match parseLinesS .NOTYPE initState lines with
  | .ok p => .ok p.2
  | .error e => .error e

/-- Embeds _build_reverse_table, whose def line does carry self; its only
caller is get_majors, which never executes its body, so this method is
unreachable in the program — it is embedded to document its own latent
slip.  The source evaluates sorted(table.items(), lambda x: x[1]) and
then groups adjacent items by driver name into a dict of frozensets.
Under Python 2 the second positional parameter of sorted is the
comparison function cmp, not key, so the one-argument lambda would be
invoked with two arguments by the first comparison the sort performs and
raise TypeError.  A list of fewer than two items is sorted without
performing any comparison, so only then would control reach the groupby
and the dict comprehension: an empty table yields the empty dict, and a
one-entry table with major m and driver d yields the dict mapping d to
frozenset([m]). -/
def build_reverse_table (table : List (Int × String)) :
    Except PyError (List (String × List Int)) :=
  match table with
  | [] => .ok []
  | [(m, d)] => .ok [(d, [m])]
  | _ => .error .typeError

set_option linter.unusedVariables false in
/-- Embeds a call to get_driver on an instance in state s.  The source
def line is

  def get_driver(device_type, major_number):

with no self parameter, so the bound-method call supplies the instance
plus the two explicit arguments to a two-parameter function and Python
raises TypeError for the arity mismatch at the call boundary: the body
never executes, no instance state is read or written, and the call
yields the TypeError with the state unchanged, whatever the device type
and major number. -/
def get_driver (s : ProcDevState) (device_type : DeviceType) (major_number : Int) :
    Except PyError (Option String) × ProcDevState :=
  (.error .typeError, s)

set_option linter.unusedVariables false in
/-- Embeds a call to get_majors on an instance in state s.  Like
get_driver, the source def line

  def get_majors(device_type, driver):

omits self, so every invocation raises TypeError for the arity mismatch
at the call boundary.  The body — whose memo line
  table_pair.right = table_pair.right or self._build_reverse_table(table_pair.left)
would, under Python truthiness, rebuild whenever right is None or the
empty dict, and whose build would raise TypeError for tables of two or
more entries (see build_reverse_table) — never executes.  The call
yields the TypeError with the state unchanged; the Bool component, false
here, records whether _build_reverse_table was invoked during the
call. -/
def get_majors (s : ProcDevState) (device_type : DeviceType) (driver : String) :
    Except PyError (Option (List Int)) × ProcDevState × Bool :=
  (.error .typeError, s, false)

/-- The concrete scenario input of the spec: a character section with a
duplicated major 4, a blank separator, and a block section. -/
def sampleLines : List String :=
  ["Character devices:", "1 mem", "4 /dev/vc/0", "4 tty", "", "Block devices:", "7 loop"]

/-- The instance state the scenario input parses to: the duplicate major
4 keeps its original slot with the last-seen driver, and both reverse
tables are still unbuilt. -/
def sampleState : ProcDevState :=
  ⟨⟨[(1, "mem"), (4, "tty")], none⟩, ⟨[(7, "loop")], none⟩⟩

/-- The state the negative-major input parses to: a successful parse
whose character forward table has the negative key -5. -/
def negState : ProcDevState :=
  ⟨⟨[(-5, "foo")], none⟩, ⟨[], none⟩⟩

theorem alookup_dictInsert {α β : Type} [DecidableEq α] (t : List (α × β)) (k : α) (v : β) :
    alookup (dictInsert t k v) k = some v := by
  induction t with
  | nil => simp [dictInsert, alookup]
  | cons p rest ih =>
    obtain ⟨k0, v0⟩ := p
    by_cases hk : k0 = k
    · simp [dictInsert, hk, alookup]
    · simp [dictInsert, hk, alookup, ih]

theorem parseLinesS_cons_err (st : DeviceType) (s : ProcDevState) (l : String)
    (ls : List String) (e : PyError) (h : parseLine st s l = .error e) :
    parseLinesS st s (l :: ls) = .error e := by
  simp [parseLinesS, h]

theorem parseLinesS_cons_ok (st st2 : DeviceType) (s s2 : ProcDevState) (l : String)
    (ls : List String) (h : parseLine st s l = .ok (st2, s2)) :
    parseLinesS st s (l :: ls) = parseLinesS st2 s2 ls := by
  simp [parseLinesS, h]

theorem parseLinesS_append (l1 l2 : List String) : ∀ (st : DeviceType) (s : ProcDevState),
    parseLinesS st s (l1 ++ l2) =
      match parseLinesS st s l1 with
      | .ok p => parseLinesS p.1 p.2 l2
      | .error e => .error e := by
  induction l1 with
  | nil => intro st s; rfl
  | cons l ls ih =>
    intro st s
    show parseLinesS st s (l :: (ls ++ l2)) = _
    simp only [parseLinesS]
    cases hp : parseLine st s l with
    | ok p => simp only [ih]
    | error e => rfl

theorem length_two_list {α : Type} : ∀ (l : List α), l.length = 2 → ∃ a b, l = [a, b]
  | [a, b], _ => ⟨a, b, rfl⟩
  | [], h => by simp at h
  | [a], h => by simp at h
  | a :: b :: c :: t, h => by simp at h

/-- C3: during parsing, a data row (a non-blank, non-header line whose
whitespace split yields exactly two tokens) encountered while the active
section is NOTYPE — no section header seen yet, or a blank line reset the
section — fails with a ParsingError naming the unrecognized section; in
particular, for any instance state a data row immediately following a
blank line that follows a header, with no new header in between, is such
a ParsingError. -/
theorem c3_notype_data_row (s : ProcDevState) (row : String)
    (h0 : rstrip row ≠ "")
    (h1 : rstrip row ≠ "Character devices:")
    (h2 : rstrip row ≠ "Block devices:")
    (h3 : (pySplit (rstrip row)).length = 2) :
    parseLine DeviceType.NOTYPE s row =
      .error (.procDevParsingError ("Parsing data for unknown device type NOTYPE.")) ∧
    ∀ st : DeviceType,
      parseLinesS st s (["Character devices:", "", row]) =
        .error (.procDevParsingError ("Parsing data for unknown device type NOTYPE.")) := by
  obtain ⟨a, b, hab⟩ := length_two_list (pySplit (rstrip row)) h3
  have hmain : parseLine DeviceType.NOTYPE s row =
      .error (.procDevParsingError ("Parsing data for unknown device type NOTYPE.")) := by
    simp only [parseLine, if_neg h0, if_neg h1, if_neg h2, parseData, hab, getPair]
    rfl
  refine ⟨hmain, fun st => ?_⟩
  have step1 : parseLinesS st s (["Character devices:", "", row]) =
      parseLinesS DeviceType.NOTYPE s ([row]) := rfl
  rw [step1]
  exact parseLinesS_cons_err DeviceType.NOTYPE s row [] _ hmain

/-- Witness for C3 at the concrete data row "1 mem" parsed against a
fresh instance state with no section active. -/
theorem c3_witness :
    parseLine DeviceType.NOTYPE initState ("1 mem") =
      .error (.procDevParsingError ("Parsing data for unknown device type NOTYPE.")) :=
  (c3_notype_data_row initState ("1 mem") (by decide) (by decide) (by decide) (by decide)).1

/-- C6: during parsing, any non-blank, non-header line that does not
split on whitespace into exactly two tokens causes the parse to fail with
a ParsingError identifying the offending line verbatim (after the
trailing-whitespace trim every line receives), anywhere in the input —
whatever the current section and instance state, and after any
successfully parsed prefix of the input. -/
theorem c6_malformed_line (line : String)
    (h0 : rstrip line ≠ "")
    (h1 : rstrip line ≠ "Character devices:")
    (h2 : rstrip line ≠ "Block devices:")
    (h3 : (pySplit (rstrip line)).length ≠ 2) :
    (∀ (st : DeviceType) (s : ProcDevState),
      parseLine st s line =
        .error (.procDevParsingError ("Unexpected format for line " ++ rstrip line))) ∧
    (∀ (pre rest : List String) (st : DeviceType) (s : ProcDevState),
      parseLinesS DeviceType.NOTYPE initState pre = .ok (st, s) →
      parseLinesS DeviceType.NOTYPE initState (pre ++ line :: rest) =
        .error (.procDevParsingError ("Unexpected format for line " ++ rstrip line))) := by
  have hpart1 : ∀ (st : DeviceType) (s : ProcDevState),
      parseLine st s line =
        .error (.procDevParsingError ("Unexpected format for line " ++ rstrip line)) := by
    intro st s
    simp only [parseLine, if_neg h0, if_neg h1, if_neg h2, parseData]
    cases hsp : pySplit (rstrip line) with
    | nil => rfl
    | cons a tl =>
      cases tl with
      | nil => rfl
      | cons b tl2 =>
        cases tl2 with
        | nil => rw [hsp] at h3; exact absurd rfl h3
        | cons c tl3 => rfl
  refine ⟨hpart1, fun pre rest st s hpre => ?_⟩
  rw [parseLinesS_append, hpre]
  exact parseLinesS_cons_err st s line rest _ (hpart1 st s)

/-- Witness for C6 at the single-token line "5" following the character
header, the malformed-input scenario of the spec. -/
theorem c6_witness :
    parseLinesS DeviceType.NOTYPE initState ((["Character devices:"]) ++ (["5"])) =
      .error (.procDevParsingError ("Unexpected format for line 5")) :=
  (c6_malformed_line ("5") (by decide) (by decide) (by decide) (by decide)).2
    (["Character devices:"]) ([]) DeviceType.CHARACTER initState (by decide)

/-- C9: construction is atomic.  Whenever the parse of a prefix of the
input fails, constructing from any extension of that input fails with the
same first error and returns no instance; and whenever the parse pass
over the whole input succeeds, the constructor returns exactly the fully
populated state that the pass produced. -/
theorem c9_atomic_construction :
    (∀ (pre rest : List String) (e : PyError),
      parseLinesS DeviceType.NOTYPE initState pre = .error e →
      mkProcDev (pre ++ rest) = .error e) ∧
    (∀ (lines : List String) (st : DeviceType) (s : ProcDevState),
      parseLinesS DeviceType.NOTYPE initState lines = .ok (st, s) →
      mkProcDev lines = .ok s) := by
  constructor
  · intro pre rest e h
    unfold mkProcDev
    rw [parseLinesS_append, h]
  · intro lines st s h
    unfold mkProcDev
    rw [h]

/-- Witness for C9: the malformed first line "5" aborts construction even
though well-formed input follows it. -/
theorem c9_witness :
    mkProcDev ((["5"]) ++ (["Block devices:", "7 loop"])) =
      .error (.procDevParsingError ("Unexpected format for line 5")) :=
  c9_atomic_construction.1 (["5"]) (["Block devices:", "7 loop"])
    (.procDevParsingError ("Unexpected format for line 5")) (by decide)

/-- C4 failing evaluation: on a freshly constructed empty instance,
get_driver(NOTYPE, 1) and get_majors(NOTYPE, "x") do not raise
ProcDevValueError — both raise TypeError at the call boundary, since
their def lines omit self and the bound-method call supplies three
arguments to a two-parameter function.  The device-type check inside the
bodies, which would have produced ProcDevValueError, is never
reached. -/
theorem c4_call_boundary_error :
    (get_driver initState DeviceType.NOTYPE 1).1 = .error .typeError ∧
    (get_majors initState DeviceType.NOTYPE ("x")).1 = .error .typeError ∧
    (get_driver initState DeviceType.NOTYPE 1).1 ≠
      .error (.procDevValueError DeviceType.NOTYPE) ∧
    (get_majors initState DeviceType.NOTYPE ("x")).1 ≠
      .error (.procDevValueError DeviceType.NOTYPE) := by
  refine ⟨by decide, by decide, by decide, by decide⟩

/-- C10: get_driver leaves the instance untouched.  For every instance
state, valid device type and major number, a get_driver call leaves the
entire instance state — both TablePairs, their forward tables and their
reverse-table slots including the unbuilt sentinel — unchanged, and in
particular never triggers construction of a reverse table.  This holds a
fortiori of the program: the call raises TypeError for the arity
mismatch at the call boundary, so no body statement ever runs and
nothing is read or written. -/
theorem c10_get_driver_frame (s : ProcDevState) (dt : DeviceType) (m : Int)
    (h : dt = DeviceType.CHARACTER ∨ dt = DeviceType.BLOCK) :
    (get_driver s dt m).2 = s := by
  rcases h with h | h <;> rw [h] <;> rfl

/-- Witness for C10 at the scenario instance, whose reverse tables are
still unbuilt, and a registered major. -/
theorem c10_witness : (get_driver sampleState DeviceType.CHARACTER 4).2 = sampleState :=
  c10_get_driver_frame sampleState DeviceType.CHARACTER 4 (Or.inl rfl)

/-- C7 evaluation: the parse half of the claim holds — dict assignment
makes the most recently inserted value the one a lookup finds, and on
the concrete scenario input with character rows "4 /dev/vc/0" then
"4 tty" construction succeeds with the character ForwardTable mapping 4
to "tty" — but the claim's conclusion fails: get_driver(CHARACTER, 4)
does not return "tty", it raises TypeError at the call boundary because
the def line omits self, so the table entry is unreachable through the
query surface. -/
theorem c7_duplicate_major :
    (∀ (t : List (Int × String)) (k : Int) (v : String),
      alookup (dictInsert t k v) k = some v) ∧
    mkProcDev sampleLines = .ok sampleState ∧
    alookup sampleState.character.left 4 = some ("tty") ∧
    (get_driver sampleState DeviceType.CHARACTER 4).1 = .error .typeError :=
  ⟨fun t k v => alookup_dictInsert t k v, by decide, by decide, by decide⟩

/-- C8 counterexample: the input line "-5 foo" parses successfully — the
constructor returns an instance whose character ForwardTable has the
negative key -5 — refuting the claim that every key of a ForwardTable
after a successful parse is a non-negative integer. -/
theorem c8_counterexample :
    mkProcDev (["Character devices:", "-5 foo"]) = .ok negState ∧
    alookup negState.character.left (-5) = some ("foo") ∧
    ((-5 : Int) < 0) := by
  refine ⟨by decide, by decide, by decide⟩

/-- C8 as amended: after any successful parse every key of a ForwardTable
is an integer accepted by Python int() from the row's major token — an
optional sign followed by decimal digits, so possibly negative — and any
major token int() rejects is a parse failure, never a silently dropped
entry: on a data row in a recognized section, a non-integer major token
makes the row's parse fail, while an accepted token makes it succeed with
exactly that integer mapped to the row's driver name. -/
theorem c8_amended_int_keys (st : DeviceType) (s : ProcDevState)
    (line maj dev : String) (tp : TablePairs)
    (h0 : rstrip line ≠ "")
    (h1 : rstrip line ≠ "Character devices:")
    (h2 : rstrip line ≠ "Block devices:")
    (h3 : pySplit (rstrip line) = [maj, dev])
    (h4 : getPair s st = some tp) :
    (pyInt maj = none → parseLine st s line = .error .valueError) ∧
    (∀ m : Int, pyInt maj = some m →
      parseLine st s line =
        .ok (st, setPair s st { tp with left := dictInsert tp.left m dev }) ∧
      alookup (dictInsert tp.left m dev) m = some dev) := by
  have hbase : parseLine st s line =
      (match pyInt maj with
       | none => .error .valueError
       | some m => .ok (st, setPair s st { tp with left := dictInsert tp.left m dev })) := by
    simp only [parseLine, if_neg h0, if_neg h1, if_neg h2, parseData, h3, h4]
  constructor
  · intro hm
    rw [hbase, hm]
  · intro m hm
    exact ⟨by rw [hbase, hm], alookup_dictInsert tp.left m dev⟩

/-- Witness for the amended C8 at the row "-5 foo" in the character
section of a fresh instance: the signed token is accepted by int() and
the entry lands in the forward table under the key -5. -/
theorem c8_amended_witness :
    parseLine DeviceType.CHARACTER initState ("-5 foo") =
      .ok (DeviceType.CHARACTER,
        setPair initState DeviceType.CHARACTER
          (TablePairs.mk (dictInsert ([]) (-5) ("foo")) none)) ∧
    alookup (dictInsert ([] : List (Int × String)) (-5) ("foo")) (-5) = some ("foo") :=
  (c8_amended_int_keys DeviceType.CHARACTER initState ("-5 foo") ("-5") ("foo")
    (TablePairs.mk ([]) none) (by decide) (by decide) (by decide) (by decide)
    (by decide)).2 (-5) (by decide)

/-- C1 failing evaluation: on the spec's concrete scenario instance,
whose character ForwardTable holds the two entries (1, mem) and (4, tty),
get_majors(CHARACTER, "mem") does not return the set of majors mapped to
"mem": the call raises TypeError at the call boundary (the def line
omits self), the instance state is untouched and _build_reverse_table is
never invoked (build flag false), so no grouping is ever produced and
the union and disjointness consequences are unobservable. -/
theorem c1_get_majors_call_fails :
    mkProcDev sampleLines = .ok sampleState ∧
    (get_majors sampleState DeviceType.CHARACTER ("mem")).1 = .error .typeError ∧
    (get_majors sampleState DeviceType.CHARACTER ("mem")).2 = (sampleState, false) := by
  refine ⟨by decide, by decide, by decide⟩

/-- C2 failing evaluation: on an instance built from empty input, a
get_majors(CHARACTER, "x") call raises TypeError at the call boundary
(the def line omits self): _build_reverse_table is never invoked (build
flag false), the reverse table is never built (the state, with its None
sentinels, comes back unchanged) and the call returns no result — so the
reverse table is not built on the first call and two successive calls,
which are this same evaluation twice, never return results at all, let
alone equal ones. -/
theorem c2_never_builds :
    mkProcDev ([] : List String) = .ok initState ∧
    get_majors initState DeviceType.CHARACTER ("x") = (.error .typeError, initState, false) := by
  refine ⟨by decide, by decide⟩

/-- C5 failing evaluation: on the scenario instance the spec's own
absent-result queries — get_driver(BLOCK, 1) for an unregistered major
and get_majors(BLOCK, "mem") for an unknown driver — do not return the
absent result None: both raise TypeError at the call boundary, because
the def lines omit self, so a lookup miss is never distinguishable from
anything else through the query surface. -/
theorem c5_miss_raises :
    mkProcDev sampleLines = .ok sampleState ∧
    (get_driver sampleState DeviceType.BLOCK 1).1 = .error .typeError ∧
    (get_majors sampleState DeviceType.BLOCK ("mem")).1 = .error .typeError := by
  refine ⟨by decide, by decide, by decide⟩
